import Mathlib

/-!
Verification development for the DT-Herne-Data-Management sewer ETL scripts.

The Python sources embedded here are:
  * `scripts/sewers/prepareSewerData.py`  (namespace `SewerData`)
  * `scripts/sewers/prepareSewers.py`     (namespace `Sewers`)
  * `scripts/sewers/insertSewerDataIntoDB.py` (namespace `InsertDB`)

Modelling conventions:
  * Python floats are modelled as `ℚ`.  Numeric attribute strings (the
    shapefile attributes "X", "Y", "Z", "E0101.N01_%", ...) are modelled by the
    rational value they denote, and Python's `float(...)` conversion on them is
    therefore the identity; `None` attribute values are `Option.none`.
  * GeoJSON coordinate triples `[lon, lat, height]` become the structure
    `Coord`; geometry objects become the inductive `Geometry`; a feature's
    property dictionary becomes a structure holding the fields the scripts
    read or write.
  * Calls into external native libraries (shapely's `buffer`/`contains`,
    `math.sqrt`) are modelled as explicit function parameters (`contains`,
    `sq`), since the scripts treat them as black boxes.
  * In-place mutation of dictionaries/lists becomes functional update; where
    Python aliasing is observable (the derivation loop of
    `deriveLineStringGeometries`) the state is threaded through list indices
    exactly as the object graph would evolve.
-/

/-- A 3D GeoJSON coordinate `[lon, lat, height]`; the height is the 3rd
ordinate, as everywhere in the scripts. -/
structure Coord where
  x : ℚ
  y : ℚ
  z : ℚ
deriving DecidableEq

/-- A GeoJSON geometry as the scripts consume it: `Point`, `LineString`,
`Polygon` (first ring is the outer ring, the rest are inner rings), or any
other geometry type, which none of the processing passes touch.  A GeoJSON
polygon always carries at least one ring, so the outer ring is a separate
field. -/
inductive Geometry where
  | point (c : Coord)
  | lineString (coords : List Coord)
  | polygon (outerRing : List Coord) (innerRings : List (List Coord))
  | other (typeName : String)
deriving DecidableEq

/-- A GeoJSON feature: a property mapping (modelled per-script by a structure
`P`) plus a geometry. -/
structure Feature (P : Type) where
  props : P
  geometry : Geometry
deriving DecidableEq

/-- A GeoJSON feature collection (the unit of file I/O in the scripts). -/
structure FeatureCollection (P : Type) where
  name : String
  features : List (Feature P)
deriving DecidableEq

/-- The geoid undulation constant `geoid_undulation = 45.43` shared by
`prepareSewers.py` and `prepareSewerData.py`. -/
def geoid_undulation : ℚ := 4543 / 100

/-- The height-offset body of `addHeightOffset` for one geometry
(`prepareSewerData.py` lines 134-145; `prepareSewers.py` lines 288-298 is the
same code with the type dispatched on a parameter that its call sites always
pass as the homogeneous collection's type).  `Point`: the single coordinate's
3rd ordinate; `LineString`: every vertex; `Polygon`: every vertex of
`coordinates[0]`, the outer ring, only.  Any other geometry type matches none
of the `if` branches and is returned unchanged. -/
def offsetGeometry (off : ℚ) : Geometry → Geometry
  | .point c => .point { c with z := c.z + off }
  | .lineString cs => .lineString (cs.map fun c => { c with z := c.z + off })
  | .polygon outer inner => .polygon (outer.map fun c => { c with z := c.z + off }) inner
  | .other n => .other n

/-- One feature under `addHeightOffset`: only `feature["geometry"]` is
touched, the property dictionary is never read or written. -/
def offsetFeature {P : Type} (off : ℚ) (f : Feature P) : Feature P :=
  { f with geometry := offsetGeometry off f.geometry }

/-- Function `addHeightOffset(json_data)` (`prepareSewerData.py` lines 132-147,
`prepareSewers.py` lines 287-300): the loop `for feature in
json_data["features"]` mutating each feature's geometry in place. -/
def addHeightOffset {P : Type} (off : ℚ) (fc : FeatureCollection P) : FeatureCollection P :=
  { fc with features := fc.features.map (offsetFeature off) }

/-- The list of 3rd ordinates targeted by the height-offset pass: a Point's
single height, a LineString's vertex heights, a Polygon's outer-ring vertex
heights. -/
def Geometry.heights : Geometry → List ℚ
  | .point c => [c.z]
  | .lineString cs => cs.map Coord.z
  | .polygon outer _ => outer.map Coord.z
  | .other _ => []

/-- The inner rings of a polygon (empty for all other geometry types). -/
def Geometry.innerRings : Geometry → List (List Coord)
  | .polygon _ inner => inner
  | _ => []

/-- The lon/lat pairs of every coordinate of a geometry, inner rings
included. -/
def Geometry.horizontal : Geometry → List (ℚ × ℚ)
  | .point c => [(c.x, c.y)]
  | .lineString cs => cs.map fun c => (c.x, c.y)
  | .polygon outer inner => (outer :: inner).flatten.map fun c => (c.x, c.y)
  | .other _ => []
namespace SewerData

/-- The property fields of `prepareSewerData.py` features that the script
reads or writes: the coordinate attributes "X", "Y", "Z", the id the pipeline
assigns (absent on input), and the two shaft height attributes
"E0101.N01_%" (cover height) and "E0101.N02_%" (bottom height).  Numeric
attribute strings are modelled by their rational value (so the script's
`float(...)` on a non-null value is the identity); null is `none`. -/
structure DProps where
  x : ℚ
  y : ℚ
  z : ℚ
  id : Option ℤ
  e0101N01 : Option ℚ
  e0101N02 : Option ℚ
deriving DecidableEq

/-- The id-assignment loop (`prepareSewerData.py` lines 68-71, and the same
loop in `prepareSewers.py` lines 128-135): `counter = 1; for feature in
features: feature["properties"]["id"] = counter; counter += 1`.  The starting
counter is a parameter so the recursion mirrors the running counter. -/
def assignIds (counter : ℤ) : List (Feature DProps) → List (Feature DProps)
  | [] => []
  | f :: fs => { f with props := { f.props with id := some counter } } :: assignIds (counter + 1) fs

/-- The id sequence the assignment loop produces: `n` consecutive integers
starting at `c`. -/
def idsFrom (c : ℤ) : ℕ → List ℤ
  | 0 => []
  | n + 1 => c :: idsFrom (c + 1) n

/-- Reads `feature["geometry"]["coordinates"][0]` and `[1]` (lon, lat).  The
source only evaluates this on Point features (the derivation pipeline runs in
the Point branch of `main`); other cases are unreachable there. -/
def geomXY : Geometry → ℚ × ℚ
  | .point c => (c.x, c.y)
  | _ => (0, 0)

/-- The latitude nudge `0.000000000001` added to the second vertex
(`prepareSewerData.py` line 189) so the derived line is not exactly
vertical. -/
def perturbation : ℚ := 1 / 1000000000000

/-- Reads a height attribute value that the source adds to
`geoid_undulation`; at every call site the value is non-null (the derivation
filters on presence first), a null would raise a TypeError in the source. -/
def optVal : Option ℚ → ℚ
  | some q => q
  | none => 0

/-- Function `createGeojsonLineStringFeature(feature)` (`prepareSewerData.py` lines
168-195): copies all properties, and builds a LineString geometry whose first
vertex is `[lon, lat, E0101.N02_% + geoid_undulation]` (the bottom height)
and whose second vertex is `[lon, lat + 0.000000000001, E0101.N01_% +
geoid_undulation]` (the cover height, on the slightly nudged latitude). -/
def createGeojsonLineStringFeature (f : Feature DProps) : Feature DProps :=
  { props := f.props,
    geometry := .lineString
      [⟨(geomXY f.geometry).1, (geomXY f.geometry).2,
        optVal f.props.e0101N02 + geoid_undulation⟩,
       ⟨(geomXY f.geometry).1, (geomXY f.geometry).2 + perturbation,
        optVal f.props.e0101N01 + geoid_undulation⟩] }

/-- Function `createNewGeojsonFile(features, filename)` (`prepareSewerData.py` lines
151-165): wraps `createGeojsonLineStringFeature` of every feature in a fresh
FeatureCollection named after the file. -/
def createNewGeojsonFile (features : List (Feature DProps)) (filename : String) :
    FeatureCollection DProps :=
  { name := filename.replace ".geojson" "",
    features := features.map createGeojsonLineStringFeature }

/-- The in-place update of lines 229-232 of `prepareSewerData.py`: the outer
feature receives the matched feature's "E0101.N01_%" value (already converted,
and equal to the outer feature's own `z` by the match condition) and its
"E0101.N02_%" value (the source converts it with `float`, the identity here;
a null would raise there). -/
def mergeHeights (fi : Feature DProps) (a : ℚ) (b : Option ℚ) : Feature DProps :=
  { fi with props := { fi.props with e0101N01 := some a, e0101N02 := b } }

/-- The inner scan of `deriveLineStringGeometries` (`prepareSewerData.py`
lines 214-232) for the outer feature living at index `i` of the feature list:
`z_value` is read once before the scan; the scan visits every feature (the
outer feature itself included — Python iterates over the same list the outer
loop mutates through aliases), skips null "E0101.N01_%" values, and on a
match of "X", "Y" and `z_value == float(E0101.N01_%)` updates the outer
feature in place. -/
def deriveInner (i : ℕ) (fs : List (Feature DProps)) : List (Feature DProps) :=
  let zv := match fs[i]? with
    | some f => f.props.z
    | none => 0
  (List.range fs.length).foldl
    (fun cur j =>
      match cur[i]?, cur[j]? with
      | some fi, some fj =>
        match fj.props.e0101N01 with
        | none => cur
        | some a =>
          if fi.props.x = fj.props.x ∧ fi.props.y = fj.props.y ∧ zv = a then
            cur.set i (mergeHeights fi a fj.props.e0101N02)
          else cur
      | _, _ => cur)
    fs

/-- Function `deriveLineStringGeometries(json_data, filename)` (`prepareSewerData.py`
lines 205-245): deep-copies the features (the input collection is never
touched), selects the features with `Z > 0` (aliases, tracked here by index),
runs the quadratic merge scans, keeps only the selected features whose two
height attributes both ended up non-null, and wraps them as new LineString
features in a fresh collection. -/
def deriveLineStringGeometries (fc : FeatureCollection DProps) (filename : String) :
    FeatureCollection DProps :=
  let features := fc.features
  let filteredIdx := (List.range features.length).filter fun i =>
    match features[i]? with
    | some f => decide (f.props.z > 0)
    | none => false
  let final := filteredIdx.foldl (fun cur i => deriveInner i cur) features
  let filtered := filteredIdx.filterMap fun i => final[i]?
  let kept := filtered.filter fun f => f.props.e0101N01.isSome && f.props.e0101N02.isSome
  createNewGeojsonFile kept filename

/-- The Point branch of `main` in `prepareSewerData.py` (lines 61-117, steps
1-3): height offset, id assignment, removal of the `Z = 100` sentinel
features (`Z < 100` filter), derivation of the shaft-depth LineString
collection, and removal of the features without a positive `Z`.  Returns the
processed point collection and the derived line collection, which are
serialized to two separate files. -/
def pointPipeline (off : ℚ) (fc : FeatureCollection DProps) (lineFilename : String) :
    FeatureCollection DProps × FeatureCollection DProps :=
  let fc1 := addHeightOffset off fc
  let fc2 := { fc1 with features := assignIds 1 fc1.features }
  let fc3 := { fc2 with features := fc2.features.filter fun f => f.props.z < 100 }
  let derived := deriveLineStringGeometries fc3 lineFilename
  let fc4 := { fc3 with features := fc3.features.filter fun f => f.props.z > 0 }
  (fc4, derived)

/-- The running-minimum update of `calculateBbox` (`prepareSewerData.py`
lines 287-289 / 302-304): `minX = minX if coords[0] >= minX else coords[0]`. -/
def keepMin (m c : ℚ) : ℚ := if c ≥ m then m else c

/-- The running-maximum update of `calculateBbox` (lines 290-292 / 305-307):
`maxX = maxX if coords[0] <= maxX else coords[0]`. -/
def keepMax (m c : ℚ) : ℚ := if c ≤ m then m else c

/-- One iteration of the coordinate loops of `calculateBbox`: the six `if
... is None` initialisations (which make the first coordinate both corners,
since the subsequent updates keep it), followed by the six running min/max
updates. -/
def bboxStep (st : Option (Coord × Coord)) (c : Coord) : Option (Coord × Coord) :=
  match st with
  | none => some (c, c)
  | some (mn, mx) =>
    some (⟨keepMin mn.x c.x, keepMin mn.y c.y, keepMin mn.z c.z⟩,
          ⟨keepMax mx.x c.x, keepMax mx.y c.y, keepMax mx.z c.z⟩)

/-- Function `calculateBbox(geometry)` (`prepareSewerData.py` lines 264-311): a Point
is its own pair of corners; a LineString folds the update over its vertices;
a Polygon folds it over every ring — `for poly in geometry["coordinates"]:
for coords in poly:` visits the outer ring and then every inner ring; any
other geometry type leaves all six values `None`. -/
def calculateBbox : Geometry → Option (Coord × Coord)
  | .point c => some (c, c)
  | .lineString cs => cs.foldl bboxStep none
  | .polygon outer inner =>
      (outer :: inner).foldl (fun st ring => ring.foldl bboxStep st) none
  | .other _ => none

/-- Function `calculateBoundingBoxInfo(json)` (`prepareSewerData.py` lines 250-259):
the per-feature map id ↦ bbox, in feature order. -/
def calculateBoundingBoxInfo (fc : FeatureCollection DProps) :
    List (Option ℤ × Option (Coord × Coord)) :=
  fc.features.map fun f => (f.props.id, calculateBbox f.geometry)

/-- Modelled from the spec's words for the refinement comparison: the
bounding box computed "over all constituent coordinates" of a "Polygon
(outer ring only)" — identical to `calculateBbox` except that a polygon's
inner rings are ignored. -/
def calculateBboxOuterRingOnly : Geometry → Option (Coord × Coord)
  | .point c => some (c, c)
  | .lineString cs => cs.foldl bboxStep none
  | .polygon outer _ => outer.foldl bboxStep none
  | .other _ => none

/-- All coordinates a geometry contributes to the code's bounding box, in
visit order (for a polygon: the outer ring, then every inner ring). -/
def allCoords : Geometry → List Coord
  | .point c => [c]
  | .lineString cs => cs
  | .polygon outer inner => (outer :: inner).flatten
  | .other _ => []
/-- The LineString of the spec's bounding-box example, with vertices
`(0,0,0),(1,2,3),(-1,5,1)`. -/
def exampleLineString : Geometry :=
  Geometry.lineString [⟨0, 0, 0⟩, ⟨1, 2, 3⟩, ⟨-1, 5, 1⟩]

end SewerData


/-- Whether `hay` starts with `needle`. -/
def listStartsWith : List Char → List Char → Bool
  | _, [] => true
  | [], _ :: _ => false
  | c :: cs, d :: ds => c == d && listStartsWith cs ds

/-- Whether `needle` occurs as a contiguous sublist of `hay`. -/
def listContainsSub : List Char → List Char → Bool
  | [], needle => needle.isEmpty
  | c :: t, needle => listStartsWith (c :: t) needle || listContainsSub t needle

/-- Python's substring test `needle in hay` on strings. -/
def strContains (hay needle : String) : Bool :=
  listContainsSub hay.toList needle.toList

/-- Python's `int(...)` on a numeric value: truncation toward zero
(`prepareSewers.py` applies it to the numeric string attribute "Z"). -/
def pyInt (q : ℚ) : ℤ := if 0 ≤ q then ⌊q⌋ else -⌊-q⌋

/-- Round half to even to an integer — the rounding of Python's builtin
`round`. -/
def roundHalfEven (q : ℚ) : ℤ :=
  if q - (⌊q⌋ : ℚ) < 1 / 2 then ⌊q⌋
  else if 1 / 2 < q - (⌊q⌋ : ℚ) then ⌊q⌋ + 1
  else if ⌊q⌋ % 2 = 0 then ⌊q⌋ else ⌊q⌋ + 1

/-- Python's `round(q, ndigits)`. -/
def pyRound (ndigits : ℕ) (q : ℚ) : ℚ :=
  (roundHalfEven (q * 10 ^ ndigits) : ℚ) / 10 ^ ndigits

namespace Sewers

/-- The property fields of `prepareSewers.py` features that the script reads
or writes.  "X", "Y", "Z" are numeric strings in the source and are modelled
by their rational value (so `float(...)` is the identity and the string
values compared with `==` compare equal exactly when the rationals do);
"Layer" is a string; the data-carrying attributes are the ones the two
correlation loops copy.  Null values are `none`. -/
structure SProps where
  x : ℚ
  y : ℚ
  z : ℚ
  layer : String
  id : Option ℤ
  color : String
  linetype : String
  lineweight : String
  hyperlink : String
  thickness : String
  elevation : Option ℚ
  e0101N01 : Option ℚ
  e0101N02 : Option ℚ
  e0101C01 : Option String
  e0102C05 : Option String
  c37S : Option String
  e0102N01 : Option ℚ
  e0102N02 : Option ℚ
  e0102N03 : Option ℚ
  e0102N05 : Option ℚ
  e0102N06 : Option ℚ
  e0102N08 : Option ℚ
deriving DecidableEq

/-- The attribute copy of the shaft/label match (`prepareSewers.py` lines
161-171): the fixed list of label attributes overwrites the shaft's; the
height fields go through `float(...)` when non-null, the identity in this
model; every other field of the shaft is untouched. -/
def mergeShaftAttrs (pr t : SProps) : SProps :=
  { pr with
    color := t.color,
    linetype := t.linetype,
    lineweight := t.lineweight,
    hyperlink := t.hyperlink,
    thickness := t.thickness,
    e0101N01 := t.e0101N01,
    e0101N02 := t.e0101N02,
    e0101C01 := t.e0101C01,
    e0102C05 := t.e0102C05,
    c37S := t.c37S,
    elevation := t.elevation }

/-- The body of the shaft loop (`prepareSewers.py` lines 149-171) for one
shaft: set the placeholder color, read `point_x`/`point_y` once, then scan
every label (`txt_block`) in order and merge its attributes whenever the 2D
coordinates are exactly equal — no tolerance, no break, so a later match
overwrites an earlier one. -/
def correlateShaft (txts : List (Feature SProps)) (shaft : Feature SProps) :
    Feature SProps :=
  let pr0 : SProps := { shaft.props with color := "150,150,150" }
  let px := shaft.props.x
  let py := shaft.props.y
  { shaft with
    props := txts.foldl
      (fun pr t => if px = t.props.x ∧ py = t.props.y then mergeShaftAttrs pr t.props else pr)
      pr0 }

/-- The shaft phase of `main` (`prepareSewers.py` lines 142-174): select the
shafts (positive truncated "Z", not the ignored inspection-symbol layer),
select the labels (layer name containing "_TXT"), correlate every shaft
against the full label list, and make the result the new point feature list.
The commented-out line 173 — the filter that would drop shafts missing a
height field — is not part of the program.  (In Python the two selections
hold aliases into one list; this functional model coincides with it whenever
no feature is selected both as shaft and as label, which is the case for all
inputs considered here.) -/
def shaftsPhase (pointFeatures : List (Feature SProps)) : List (Feature SProps) :=
  let shafts := (pointFeatures.filter fun f => decide (pyInt f.props.z > 0)).filter
    fun f => decide (f.props.layer ≠ "Abwasser-Haltungen-Insp-Symbole-DWA-SK")
  let txts := pointFeatures.filter fun f => strContains f.props.layer "_TXT"
  shafts.map (correlateShaft txts)

/-- Reads `pipe["geometry"]["coordinates"]`; `main` only reaches this with
LineString features (the pipes file). -/
def lineCoords : Geometry → List Coord
  | .lineString cs => cs
  | _ => []

/-- Function `getLinestringLength2D(coords)` (`prepareSewers.py` lines 326-335): the
loop `for i in range(1, len(coords))` summing `sqrt(dx*dx + dy*dy)` of each
consecutive vertex pair, the height ordinate never read.  `sq` is the
`math.sqrt` library call, passed as an oracle. -/
def getLinestringLength2D (sq : ℚ → ℚ) : List Coord → ℚ
  | [] => 0
  | [_] => 0
  | a :: b :: rest =>
      sq ((a.x - b.x) * (a.x - b.x) + (a.y - b.y) * (a.y - b.y))
        + getLinestringLength2D sq (b :: rest)

/-- Constant `epsilon = 0.1`, the length plus/minus interval of the pipe matching
(`prepareSewers.py` line 179). -/
def epsilon : ℚ := 1 / 10

/-- The placeholder attributes set for every pipe before its label scan
(`prepareSewers.py` lines 184-185): the fixed color "150,150,150" and the
fixed default diameter 300 in "E0102.N05_%". -/
def pipeInit (pr : SProps) : SProps :=
  { pr with color := "150,150,150", e0102N05 := some 300 }

/-- The pipe/label match condition (`prepareSewers.py` lines 196-200): a null
declared length is skipped (`continue`); otherwise the declared length,
rounded to 2 decimals, must lie within `epsilon` of the pipe's computed
(3-decimal-rounded) 2D length, and the label's point must be contained in
the 2D buffer polygon of radius 1 around the line — `contains` is the
shapely `buffer(...).contains(Point(float(x), float(y)))` library call,
passed as an oracle on the label's "X"/"Y" attributes. -/
def pipeCond (len2 : ℚ) (contains : ℚ → ℚ → Bool) (t : Feature SProps) : Bool :=
  match t.props.e0102N03 with
  | none => false
  | some txtLen =>
    let txtLen2 := pyRound 2 txtLen
    decide (len2 - epsilon ≤ txtLen2) && decide (txtLen2 ≤ len2 + epsilon)
      && contains t.props.x t.props.y

/-- The attribute copy of the pipe/label match (`prepareSewers.py` lines
201-215): the fixed list of label attributes overwrites the pipe's
placeholders; the numeric fields go through `float(...)` when non-null, the
identity in this model. -/
def mergePipeAttrs (pr t : SProps) : SProps :=
  { pr with
    color := t.color,
    linetype := t.linetype,
    lineweight := t.lineweight,
    hyperlink := t.hyperlink,
    thickness := t.thickness,
    e0102N01 := t.e0102N01,
    e0102N02 := t.e0102N02,
    e0102N03 := t.e0102N03,
    e0102N05 := t.e0102N05,
    e0102N06 := t.e0102N06,
    e0102N08 := t.e0102N08,
    e0101C01 := t.e0101C01,
    e0102C05 := t.e0102C05,
    c37S := t.c37S,
    elevation := t.elevation }

/-- The label scan of the pipe loop (`prepareSewers.py` lines 191-216): visit
the labels in order and `break` after the first one satisfying the match
condition, merging its attributes. -/
def pipeScanLoop (cond : Feature SProps → Bool) (pr : SProps) :
    List (Feature SProps) → SProps
  | [] => pr
  | t :: ts => if cond t then mergePipeAttrs pr t.props else pipeScanLoop cond pr ts

/-- The body of the pipe loop (`prepareSewers.py` lines 181-216) for one
pipe: set the placeholder attributes, compute the 2D length rounded to 3
decimals, and scan the labels first-match-wins. -/
def correlatePipe (sq : ℚ → ℚ) (contains : ℚ → ℚ → Bool)
    (txts : List (Feature SProps)) (pipe : Feature SProps) : Feature SProps :=
  let len2 := pyRound 3 (getLinestringLength2D sq (lineCoords pipe.geometry))
  { pipe with props := pipeScanLoop (pipeCond len2 contains) (pipeInit pipe.props) txts }

/-- A property record with every field at a neutral value, used to build the
concrete features of the witnesses and counterexamples. -/
def baseProps : SProps :=
  { x := 0,
    y := 0,
    z := 0,
    layer := "",
    id := none,
    color := "",
    linetype := "",
    lineweight := "",
    hyperlink := "",
    thickness := "",
    elevation := none,
    e0101N01 := none,
    e0101N02 := none,
    e0101C01 := none,
    e0102C05 := none,
    c37S := none,
    e0102N01 := none,
    e0102N02 := none,
    e0102N03 := none,
    e0102N05 := none,
    e0102N06 := none,
    e0102N08 := none }

/-- A shaft feature with positive "Z", an ordinary layer name, and both
height attributes null — and no label anywhere with its coordinates. -/
def shaftNoHeights : Feature SProps :=
  { props := { baseProps with z := 5, layer := "Abwasser-Schaechte" },
    geometry := .point ⟨0, 0, 5⟩ }

/-- The vertex list of the example pipe: 2D length 5 (a 3-4-5 triangle in
the horizontal plane), heights deliberately unequal. -/
def pipeExampleCoords : List Coord := [⟨0, 0, 0⟩, ⟨3, 4, 7⟩]

/-- The example pipe feature. -/
def pipeExample : Feature SProps :=
  { props := baseProps, geometry := .lineString pipeExampleCoords }

/-- A label whose declared length matches the example pipe (with `sq = id`
the computed squared-distance sum is 25), first in scan order. -/
def txtPipeA : Feature SProps :=
  { props := { baseProps with e0102N03 := some 25, color := "colorA" },
    geometry := .point ⟨0, 0, 0⟩ }

/-- A second label that also matches the example pipe. -/
def txtPipeB : Feature SProps :=
  { props := { baseProps with e0102N03 := some 25, color := "colorB" },
    geometry := .point ⟨1, 1, 0⟩ }

/-- A label with a null declared length: the scan skips it
(`continue`). -/
def txtNoLength : Feature SProps :=
  { props := { baseProps with e0102N03 := none }, geometry := .point ⟨0, 0, 0⟩ }

end Sewers

namespace InsertDB

/-- The database operations the load step can issue for one file, in
order. -/
inductive DBOp where
  | dropCollection (name : String)
  | createIndex (name : String)
  | insertOne (name : String)
  | bulkWrite (name : String) (featureCount : ℕ)
deriving DecidableEq

/-- The filename dispatch of `insertSewerDataIntoDB.py` `main` (lines
35-67): the `if/elif` chain testing the fixed filename substrings in source
order, returning the collection suffix and whether the file is a bbox-info
file, or raising when no pattern matches. -/
def inferCollection (filename : String) : Except String (String × Bool) :=
  if strContains filename "point.geojson" then .ok ("shafts", false)
  else if strContains filename "point.bboxInfo.json" then .ok ("shafts.bboxInfo", true)
  else if strContains filename "point_as_lines.geojson" then .ok ("shaftsAsLines", false)
  else if strContains filename "point_as_lines.bboxInfo.json" then
    .ok ("shaftsAsLines.bboxInfo", true)
  else if strContains filename "line.geojson" then .ok ("pipes", false)
  else if strContains filename "line.bboxInfo.json" then .ok ("pipes.bboxInfo", true)
  else if strContains filename "polygon.geojson" then .ok ("polygon", false)
  else if strContains filename "polygon.bboxInfo.json" then .ok ("polygon.bboxInfo", true)
  else .error "Filename must contain a recognized pattern (to determine the collection to insert into)"

/-- The per-file body of the load loop of `insertSewerDataIntoDB.py` (lines
33-103): infer the target collection suffix — raising immediately on an
unrecognized filename, before the collection is even looked up — then drop
the collection if it exists, and issue the writes (a single insert for a
bbox-info file; an index creation and a bulk write for a geometry file).
The result is the ordered list of database operations; an error result
carries none, so no database write happens for a rejected file. -/
def processFile (cfgCollection : String) (filename : String) (featureCount : ℕ)
    (existingCollections : List String) : Except String (List DBOp) :=
  match inferCollection filename with
  | .error e => .error e
  | .ok (suffix, isBbox) =>
    let collectionName := cfgCollection ++ "." ++ suffix
    let dropOps := if existingCollections.contains collectionName then
        [DBOp.dropCollection collectionName] else []
    if isBbox then .ok (dropOps ++ [DBOp.insertOne collectionName])
    else .ok (dropOps ++ [DBOp.createIndex collectionName,
                          DBOp.bulkWrite collectionName featureCount])

end InsertDB

namespace SewerData

/-- A two-feature point collection for the id-gap counterexample: the first
feature carries the sentinel height `Z = 100` and is removed by the pipeline
only after ids are assigned. -/
def gapExample : FeatureCollection DProps :=
  { name := "points",
    features :=
      [ { props := { x := 0, y := 0, z := 100, id := none, e0101N01 := none, e0101N02 := none },
          geometry := .point ⟨0, 0, 100⟩ },
        { props := { x := 1, y := 1, z := 5, id := none, e0101N01 := none, e0101N02 := none },
          geometry := .point ⟨1, 1, 5⟩ } ] }

/-- The spec's derivation example as an input collection: one shaft at
(lon 7, lat 51) with cover height ("E0101.N01_%") 10 and bottom height
("E0101.N02_%") 2. -/
def deriveExampleIn : FeatureCollection DProps :=
  { name := "shafts",
    features :=
      [ { props := { x := 7, y := 51, z := 10, id := some 1,
                     e0101N01 := some 10, e0101N02 := some 2 },
          geometry := .point ⟨7, 51, 10⟩ } ] }

/-- The derived shaft-depth line the code produces for `deriveExampleIn`:
vertices `[7, 51, 2 + offset]` and `[7, 51 + 1e-12, 10 + offset]`. -/
def deriveExampleOut : Feature DProps :=
  { props := { x := 7, y := 51, z := 10, id := some 1,
               e0101N01 := some 10, e0101N02 := some 2 },
    geometry := .lineString
      [⟨7, 51, 2 + geoid_undulation⟩,
       ⟨7, 51 + perturbation, 10 + geoid_undulation⟩] }

end SewerData

-- ===================== Theorems =====================

theorem offsetGeometry_heights (off : ℚ) (g : Geometry) :
    (offsetGeometry off g).heights = g.heights.map (fun z => z + off) := by
  cases g <;> simp [offsetGeometry, Geometry.heights, List.map_map, Function.comp]

theorem offsetGeometry_innerRings (off : ℚ) (g : Geometry) :
    (offsetGeometry off g).innerRings = g.innerRings := by
  cases g <;> simp [offsetGeometry, Geometry.innerRings]

theorem offsetGeometry_horizontal (off : ℚ) (g : Geometry) :
    (offsetGeometry off g).horizontal = g.horizontal := by
  cases g with
  | polygon outer inner =>
      simp [offsetGeometry, Geometry.horizontal, List.map_map, Function.comp]
  | _ => simp [offsetGeometry, Geometry.horizontal, List.map_map, Function.comp]

/-- C1: For every FeatureCollection passed to the height-offset pass with a
scalar offset, the offset is added to the height (3rd) ordinate of every
coordinate of every geometry exactly once — a Point's single coordinate,
every vertex of a LineString, and every vertex of a Polygon's outer ring only,
the inner rings being untouched: feature by feature, the list of output height
ordinates equals the list of input height ordinates with the offset added
pointwise, and the inner rings are returned unchanged. -/
theorem heightOffset_adds_offset_once {P : Type} (off : ℚ) (fc : FeatureCollection P) :
    ((addHeightOffset off fc).features.map fun f => f.geometry.heights)
      = (fc.features.map fun f => f.geometry.heights.map (fun z => z + off))
    ∧ ((addHeightOffset off fc).features.map fun f => f.geometry.innerRings)
      = (fc.features.map fun f => f.geometry.innerRings) := by
  constructor <;>
    simp [addHeightOffset, offsetFeature, List.map_map, Function.comp,
      offsetGeometry_heights, offsetGeometry_innerRings]

/-- C10: The height-offset pass only modifies 3rd (height) ordinates of the
supported geometry types — for every feature the property mapping is left
unchanged and the lon/lat ordinates of every coordinate (inner rings
included) are left unchanged, and a feature whose geometry type is not Point,
LineString, or Polygon is left entirely unchanged. -/
theorem heightOffset_frame {P : Type} (off : ℚ) (fc : FeatureCollection P)
    (p : P) (n : String) :
    ((addHeightOffset off fc).features.map fun f => f.props)
      = (fc.features.map fun f => f.props)
    ∧ ((addHeightOffset off fc).features.map fun f => f.geometry.horizontal)
      = (fc.features.map fun f => f.geometry.horizontal)
    ∧ offsetFeature off ⟨p, Geometry.other n⟩ = ⟨p, Geometry.other n⟩ := by
  refine ⟨?_, ?_, ?_⟩
  · simp [addHeightOffset, offsetFeature]
  · simp [addHeightOffset, offsetFeature, List.map_map, Function.comp,
      offsetGeometry_horizontal]
  · simp [offsetFeature, offsetGeometry]

namespace SewerData

theorem keepMin_eq_min (m c : ℚ) : keepMin m c = min m c := by
  unfold keepMin
  split
  · next h => exact (min_eq_left (ge_iff_le.mp h)).symm
  · next h => exact (min_eq_right (le_of_not_le fun hc => h (ge_iff_le.mpr hc))).symm

theorem keepMax_eq_max (m c : ℚ) : keepMax m c = max m c := by
  unfold keepMax
  split
  · next h => exact (max_eq_left h).symm
  · next h => exact (max_eq_right (le_of_not_le h)).symm

theorem foldl_keepMin_le (l : List ℚ) : ∀ a : ℚ,
    l.foldl keepMin a ≤ a ∧ ∀ b ∈ l, l.foldl keepMin a ≤ b := by
  induction l with
  | nil => exact fun a => ⟨le_refl a, by simp⟩
  | cons c l ih =>
    intro a
    obtain ⟨h1, h2⟩ := ih (keepMin a c)
    refine ⟨le_trans h1 ?_, ?_⟩
    · rw [keepMin_eq_min]; exact min_le_left a c
    · intro b hb
      rcases List.mem_cons.mp hb with rfl | hb
      · exact le_trans h1 (by rw [keepMin_eq_min]; exact min_le_right a b)
      · exact h2 b hb

theorem foldl_keepMin_mem (l : List ℚ) : ∀ a : ℚ, l.foldl keepMin a ∈ a :: l := by
  induction l with
  | nil => simp
  | cons c l ih =>
    intro a
    rw [List.foldl_cons]
    rcases List.mem_cons.mp (ih (keepMin a c)) with h | h
    · rw [h, keepMin_eq_min]
      rcases min_choice a c with h' | h' <;> rw [h'] <;> simp
    · exact List.mem_cons_of_mem _ (List.mem_cons_of_mem _ h)

theorem foldl_keepMax_le (l : List ℚ) : ∀ a : ℚ,
    a ≤ l.foldl keepMax a ∧ ∀ b ∈ l, b ≤ l.foldl keepMax a := by
  induction l with
  | nil => exact fun a => ⟨le_refl a, by simp⟩
  | cons c l ih =>
    intro a
    obtain ⟨h1, h2⟩ := ih (keepMax a c)
    refine ⟨le_trans ?_ h1, ?_⟩
    · rw [keepMax_eq_max]; exact le_max_left a c
    · intro b hb
      rcases List.mem_cons.mp hb with rfl | hb
      · exact le_trans (by rw [keepMax_eq_max]; exact le_max_right a b) h1
      · exact h2 b hb

theorem foldl_keepMax_mem (l : List ℚ) : ∀ a : ℚ, l.foldl keepMax a ∈ a :: l := by
  induction l with
  | nil => simp
  | cons c l ih =>
    intro a
    rw [List.foldl_cons]
    rcases List.mem_cons.mp (ih (keepMax a c)) with h | h
    · rw [h, keepMax_eq_max]
      rcases max_choice a c with h' | h' <;> rw [h'] <;> simp
    · exact List.mem_cons_of_mem _ (List.mem_cons_of_mem _ h)

theorem foldl_bboxStep_some (cs : List Coord) : ∀ mn mx : Coord,
    cs.foldl bboxStep (some (mn, mx)) =
      some (⟨(cs.map Coord.x).foldl keepMin mn.x,
             (cs.map Coord.y).foldl keepMin mn.y,
             (cs.map Coord.z).foldl keepMin mn.z⟩,
            ⟨(cs.map Coord.x).foldl keepMax mx.x,
             (cs.map Coord.y).foldl keepMax mx.y,
             (cs.map Coord.z).foldl keepMax mx.z⟩) := by
  induction cs with
  | nil => intro mn mx; rfl
  | cons c cs ih => intro mn mx; simp only [List.foldl_cons, List.map_cons, bboxStep]; exact ih _ _

theorem foldl_bboxStep_cons (c : Coord) (cs : List Coord) :
    (c :: cs).foldl bboxStep none =
      some (⟨(cs.map Coord.x).foldl keepMin c.x,
             (cs.map Coord.y).foldl keepMin c.y,
             (cs.map Coord.z).foldl keepMin c.z⟩,
            ⟨(cs.map Coord.x).foldl keepMax c.x,
             (cs.map Coord.y).foldl keepMax c.y,
             (cs.map Coord.z).foldl keepMax c.z⟩) := by
  simp only [List.foldl_cons, bboxStep]
  exact foldl_bboxStep_some cs c c

theorem calculateBbox_eq_foldl_allCoords (g : Geometry) (hg : allCoords g ≠ []) :
    calculateBbox g = (allCoords g).foldl bboxStep none := by
  cases g with
  | point c => rfl
  | lineString cs => rfl
  | polygon outer inner =>
      simp only [calculateBbox, allCoords, List.foldl_flatten]
  | other n => simp [allCoords] at hg

/-- C8 counterexample: the claim's "Polygon (outer ring only)" is false on the
code — `calculateBbox` scans every ring of a polygon, so for the polygon with
outer ring `[(0,0,0)]` and inner ring `[(5,5,5)]` the code returns
pMax = (5,5,5) while the outer-ring-only reading (the spec-modelled
`calculateBboxOuterRingOnly`) returns pMax = (0,0,0). -/
theorem calculateBbox_counterexample_inner_ring :
    calculateBbox (Geometry.polygon [⟨0, 0, 0⟩] [[⟨5, 5, 5⟩]])
        = some (⟨0, 0, 0⟩, ⟨5, 5, 5⟩)
    ∧ calculateBboxOuterRingOnly (Geometry.polygon [⟨0, 0, 0⟩] [[⟨5, 5, 5⟩]])
        = some (⟨0, 0, 0⟩, ⟨0, 0, 0⟩)
    ∧ calculateBbox (Geometry.polygon [⟨0, 0, 0⟩] [[⟨5, 5, 5⟩]])
        ≠ calculateBboxOuterRingOnly (Geometry.polygon [⟨0, 0, 0⟩] [[⟨5, 5, 5⟩]]) := by
  refine ⟨by decide, by decide, by decide⟩

/-- C8 (amended): for every geometry of type Point, LineString, or Polygon
with at least one coordinate, the bounding-box computation returns the
per-axis minimum corner pMin and maximum corner pMax over all constituent
coordinates — for a Polygon over all of its rings, outer and inner — height
ordinate included: each corner ordinate bounds every coordinate of the
geometry on its axis and is attained by one of them. -/
theorem calculateBbox_min_max (g : Geometry) (c : Coord) (cs : List Coord)
    (hg : allCoords g = c :: cs) :
    ∃ mn mx : Coord, calculateBbox g = some (mn, mx)
      ∧ (∀ d ∈ allCoords g, mn.x ≤ d.x ∧ mn.y ≤ d.y ∧ mn.z ≤ d.z
          ∧ d.x ≤ mx.x ∧ d.y ≤ mx.y ∧ d.z ≤ mx.z)
      ∧ mn.x ∈ (allCoords g).map Coord.x
      ∧ mn.y ∈ (allCoords g).map Coord.y
      ∧ mn.z ∈ (allCoords g).map Coord.z
      ∧ mx.x ∈ (allCoords g).map Coord.x
      ∧ mx.y ∈ (allCoords g).map Coord.y
      ∧ mx.z ∈ (allCoords g).map Coord.z := by
  have hne : allCoords g ≠ [] := by rw [hg]; exact List.cons_ne_nil _ _
  rw [calculateBbox_eq_foldl_allCoords g hne, hg, foldl_bboxStep_cons]
  refine ⟨_, _, rfl, ?_, ?_, ?_, ?_, ?_, ?_, ?_⟩
  · intro d hd
    rcases List.mem_cons.mp hd with rfl | hd
    · exact ⟨(foldl_keepMin_le _ _).1, (foldl_keepMin_le _ _).1, (foldl_keepMin_le _ _).1,
        (foldl_keepMax_le _ _).1, (foldl_keepMax_le _ _).1, (foldl_keepMax_le _ _).1⟩
    · exact ⟨(foldl_keepMin_le _ _).2 _ (List.mem_map_of_mem _ hd),
        (foldl_keepMin_le _ _).2 _ (List.mem_map_of_mem _ hd),
        (foldl_keepMin_le _ _).2 _ (List.mem_map_of_mem _ hd),
        (foldl_keepMax_le _ _).2 _ (List.mem_map_of_mem _ hd),
        (foldl_keepMax_le _ _).2 _ (List.mem_map_of_mem _ hd),
        (foldl_keepMax_le _ _).2 _ (List.mem_map_of_mem _ hd)⟩
  · simpa using foldl_keepMin_mem (cs.map Coord.x) c.x
  · simpa using foldl_keepMin_mem (cs.map Coord.y) c.y
  · simpa using foldl_keepMin_mem (cs.map Coord.z) c.z
  · simpa using foldl_keepMax_mem (cs.map Coord.x) c.x
  · simpa using foldl_keepMax_mem (cs.map Coord.y) c.y
  · simpa using foldl_keepMax_mem (cs.map Coord.z) c.z

/-- Witness for C8 at the spec's concrete example: the LineString with
vertices `(0,0,0),(1,2,3),(-1,5,1)` has a bounding box, it satisfies the
per-axis min/max characterisation, and it evaluates to pMin = (-1,0,0),
pMax = (1,5,3) exactly as the claim's example states. -/
theorem calculateBbox_min_max_witness :
    (∃ mn mx : Coord, calculateBbox exampleLineString = some (mn, mx)
      ∧ (∀ d ∈ allCoords exampleLineString, mn.x ≤ d.x ∧ mn.y ≤ d.y ∧ mn.z ≤ d.z
          ∧ d.x ≤ mx.x ∧ d.y ≤ mx.y ∧ d.z ≤ mx.z)
      ∧ mn.x ∈ (allCoords exampleLineString).map Coord.x
      ∧ mn.y ∈ (allCoords exampleLineString).map Coord.y
      ∧ mn.z ∈ (allCoords exampleLineString).map Coord.z
      ∧ mx.x ∈ (allCoords exampleLineString).map Coord.x
      ∧ mx.y ∈ (allCoords exampleLineString).map Coord.y
      ∧ mx.z ∈ (allCoords exampleLineString).map Coord.z)
    ∧ calculateBbox exampleLineString = some (⟨-1, 0, 0⟩, ⟨1, 5, 3⟩) :=
  ⟨calculateBbox_min_max exampleLineString ⟨0, 0, 0⟩ [⟨1, 2, 3⟩, ⟨-1, 5, 1⟩] rfl,
   by decide⟩

end SewerData
namespace Sewers

theorem mergeShaftAttrs_overwrite (s t1 t2 : SProps) :
    mergeShaftAttrs (mergeShaftAttrs s t1) t2 = mergeShaftAttrs s t2 := rfl

theorem foldl_merge_last (px py : ℚ) (l : List (Feature SProps)) (s0 : SProps) :
    l.foldl
        (fun pr t => if px = t.props.x ∧ py = t.props.y then mergeShaftAttrs pr t.props else pr)
        s0
      = match (l.filter fun t => decide (px = t.props.x ∧ py = t.props.y)).getLast? with
        | none => s0
        | some t => mergeShaftAttrs s0 t.props := by
  induction l using List.reverseRecOn generalizing s0 with
  | nil => rfl
  | append_singleton l t ih =>
    simp only [List.foldl_append, List.foldl_cons, List.foldl_nil, List.filter_append, ih]
    by_cases hp : px = t.props.x ∧ py = t.props.y
    · rw [if_pos hp]
      have hft : List.filter (fun t => decide (px = t.props.x ∧ py = t.props.y)) [t] = [t] := by
        simp [hp]
      rw [hft, List.getLast?_concat]
      cases hfl : (l.filter fun t => decide (px = t.props.x ∧ py = t.props.y)).getLast? <;>
        simp [mergeShaftAttrs_overwrite]
    · rw [if_neg hp]
      have hft : List.filter (fun t => decide (px = t.props.x ∧ py = t.props.y)) [t] = [] := by
        simp [hp]
      rw [hft, List.append_nil]

/-- C3: In the shaft/label correlation, the full label list is scanned and a
label's attributes are merged into the shaft's attribute set exactly when the
shaft's and label's 2D coordinates are equal — exact equality, no tolerance:
the result of the scan is the shaft with the placeholder color when no label
has equal coordinates, and otherwise the merge of the last label in scan
order whose coordinates are equal (later matches overwrite earlier ones, no
deduplication). -/
theorem shaft_merge_last_match (txts : List (Feature SProps)) (shaft : Feature SProps) :
    correlateShaft txts shaft =
      { shaft with
        props :=
          match (txts.filter fun t =>
              decide (shaft.props.x = t.props.x ∧ shaft.props.y = t.props.y)).getLast? with
          | none => { shaft.props with color := "150,150,150" }
          | some t => mergeShaftAttrs { shaft.props with color := "150,150,150" } t.props } := by
  simp only [correlateShaft]
  rw [foldl_merge_last]

theorem pipeScanLoop_eq_find (cond : Feature SProps → Bool) (pr : SProps) :
    ∀ l : List (Feature SProps),
      pipeScanLoop cond pr l =
        match l.find? cond with
        | none => pr
        | some t => mergePipeAttrs pr t.props := by
  intro l
  induction l with
  | nil => rfl
  | cons t ts ih =>
    cases hc : cond t
    · rw [pipeScanLoop, if_neg (by simp [hc]), ih, List.find?_cons_of_neg _ (by simp [hc])]
    · rw [pipeScanLoop, if_pos (by simp [hc]), List.find?_cons_of_pos _ (by simp [hc])]

theorem getLinestringLength2D_eq_sum (sq : ℚ → ℚ) :
    ∀ cs : List Coord,
      getLinestringLength2D sq cs
        = ((cs.zip cs.tail).map fun p =>
            sq ((p.1.x - p.2.x) * (p.1.x - p.2.x) + (p.1.y - p.2.y) * (p.1.y - p.2.y))).sum
  | [] => rfl
  | [_] => rfl
  | a :: b :: rest => by
    rw [getLinestringLength2D, getLinestringLength2D_eq_sum sq (b :: rest)]
    simp [List.zip_cons_cons]

/-- C4: In the pipe/label correlation the pipe's 2D length is the sum of the
consecutive-vertex Euclidean distances of its LineString, height ignored (the
`sq` oracle is the `math.sqrt` call, applied to the squared horizontal
distances only); a label matches when its declared length, after the
source's roundings, lies within the fixed tolerance `epsilon` of the
computed length AND its point lies inside the buffer polygon (the `contains`
oracle is the shapely containment call); the scan stops at the first match,
so the merged pipe attributes are those of the first matching label in scan
order — the placeholders when none matches. -/
theorem pipe_first_match (sq : ℚ → ℚ) (contains : ℚ → ℚ → Bool)
    (txts : List (Feature SProps)) (pipe : Feature SProps) (cs : List Coord)
    (hgeom : pipe.geometry = .lineString cs) :
    (correlatePipe sq contains txts pipe
      = { pipe with
          props :=
            match txts.find? (pipeCond (pyRound 3 (getLinestringLength2D sq cs)) contains) with
            | none => pipeInit pipe.props
            | some t => mergePipeAttrs (pipeInit pipe.props) t.props })
    ∧ getLinestringLength2D sq cs
        = ((cs.zip cs.tail).map fun p =>
            sq ((p.1.x - p.2.x) * (p.1.x - p.2.x) + (p.1.y - p.2.y) * (p.1.y - p.2.y))).sum := by
  constructor
  · simp only [correlatePipe, hgeom, lineCoords]
    rw [pipeScanLoop_eq_find]
  · exact getLinestringLength2D_eq_sum sq cs

/-- Witness for C4: a 3-4-5 pipe and two labels that both satisfy the match
condition; the scan merges the first one, so the pipe's merged color is the
first label's. -/
theorem pipe_first_match_witness :
    pipeExample.geometry = Geometry.lineString pipeExampleCoords
    ∧ (correlatePipe id (fun _ _ => true) [txtPipeA, txtPipeB] pipeExample).props.color
        = "colorA" := by
  refine ⟨rfl, ?_⟩
  have h := (pipe_first_match id (fun _ _ => true) [txtPipeA, txtPipeB] pipeExample
    pipeExampleCoords rfl).1
  rw [h]
  norm_num [List.find?, pipeCond, pipeExample, pipeExampleCoords, txtPipeA, txtPipeB,
    baseProps, getLinestringLength2D, pyRound, roundHalfEven, epsilon, mergePipeAttrs,
    pipeInit]

/-- C6: A pipe for which no label satisfies the match condition retains the
placeholder attribute values set before the scan: the fixed color
"150,150,150" and the fixed default diameter 300 in "E0102.N05_%". -/
theorem pipe_unmatched_keeps_defaults (sq : ℚ → ℚ) (contains : ℚ → ℚ → Bool)
    (txts : List (Feature SProps)) (pipe : Feature SProps)
    (h : ∀ t ∈ txts,
      pipeCond (pyRound 3 (getLinestringLength2D sq (lineCoords pipe.geometry))) contains t
        = false) :
    (correlatePipe sq contains txts pipe).props.color = "150,150,150"
    ∧ (correlatePipe sq contains txts pipe).props.e0102N05 = some 300 := by
  have hfind : txts.find?
      (pipeCond (pyRound 3 (getLinestringLength2D sq (lineCoords pipe.geometry))) contains)
      = none :=
    List.find?_eq_none.mpr fun x hx => by simp [h x hx]
  refine ⟨?_, ?_⟩ <;>
  · simp only [correlatePipe]
    rw [pipeScanLoop_eq_find, hfind]
    rfl

/-- Witness for C6: a pipe scanned against a single label with a null
declared length keeps both placeholder values. -/
theorem pipe_unmatched_keeps_defaults_witness :
    (∀ t ∈ [txtNoLength],
      pipeCond (pyRound 3 (getLinestringLength2D id (lineCoords pipeExample.geometry)))
        (fun _ _ => false) t = false)
    ∧ (correlatePipe id (fun _ _ => false) [txtNoLength] pipeExample).props.color
        = "150,150,150"
    ∧ (correlatePipe id (fun _ _ => false) [txtNoLength] pipeExample).props.e0102N05
        = some 300 := by
  have hyp : ∀ t ∈ [txtNoLength],
      pipeCond (pyRound 3 (getLinestringLength2D id (lineCoords pipeExample.geometry)))
        (fun _ _ => false) t = false := by
    intro t ht
    rw [List.mem_singleton.mp ht]
    rfl
  exact ⟨hyp,
    pipe_unmatched_keeps_defaults id (fun _ _ => false) [txtNoLength] pipeExample hyp⟩

/-- C5 counterexample: the filter dropping shafts with missing height fields
is commented out in `prepareSewers.py` (line 173), so a shaft whose merged
attributes still have both height fields null stays in the output shaft
collection: running the shaft phase on such a shaft yields an output
collection whose single shaft has both "E0101.N01_%" and "E0101.N02_%"
null. -/
theorem shafts_output_keeps_missing_heights :
    (shaftsPhase [shaftNoHeights]).map (fun f => (f.props.e0101N01, f.props.e0101N02))
      = [(none, none)] := by
  norm_num [shaftsPhase, shaftNoHeights, baseProps, pyInt, strContains,
    listContainsSub, listStartsWith, List.filter]
  simp [correlateShaft, mergeShaftAttrs]

end Sewers

namespace SewerData

theorem mem_derive_exists (fc : FeatureCollection DProps) (fn : String) (g : Feature DProps)
    (hg : g ∈ (deriveLineStringGeometries fc fn).features) :
    ∃ f : Feature DProps, f.props.e0101N01.isSome ∧ f.props.e0101N02.isSome
      ∧ g = createGeojsonLineStringFeature f := by
  simp only [deriveLineStringGeometries, createNewGeojsonFile, List.mem_map] at hg
  obtain ⟨f, hf, rfl⟩ := hg
  have hp := (List.mem_filter.mp hf).2
  simp only [Bool.and_eq_true] at hp
  exact ⟨f, hp.1, hp.2, rfl⟩

/-- C5 (amended): the filter that would drop shafts with missing height
fields from the shaft collection is commented out in `prepareSewers.py`, so
the output shaft collection can retain such shafts (see the counterexample);
the requirement is enforced only in the derived shaft-depth LineString
collection of `prepareSewerData.py`, every feature of which has both the
cover-height attribute "E0101.N01_%" and the bottom-height attribute
"E0101.N02_%" present. -/
theorem derived_collection_requires_heights (fc : FeatureCollection DProps) (fn : String)
    (g : Feature DProps) (hg : g ∈ (deriveLineStringGeometries fc fn).features) :
    g.props.e0101N01.isSome ∧ g.props.e0101N02.isSome := by
  obtain ⟨f, h1, h2, rfl⟩ := mem_derive_exists fc fn g hg
  exact ⟨h1, h2⟩

theorem deriveExample_features :
    (deriveLineStringGeometries deriveExampleIn "point_as_lines.geojson").features
      = [deriveExampleOut] := by
  norm_num [deriveLineStringGeometries, deriveExampleIn, deriveExampleOut, deriveInner,
    mergeHeights, createNewGeojsonFile, createGeojsonLineStringFeature, geomXY, optVal,
    List.filter, List.filterMap, List.set, List.range_succ]

/-- Witness for C5's amended claim at the derivation example: the derived
feature is in the derived collection and carries both height attributes. -/
theorem derived_collection_requires_heights_witness :
    deriveExampleOut
        ∈ (deriveLineStringGeometries deriveExampleIn "point_as_lines.geojson").features
    ∧ deriveExampleOut.props.e0101N01.isSome ∧ deriveExampleOut.props.e0101N02.isSome := by
  have hmem : deriveExampleOut
      ∈ (deriveLineStringGeometries deriveExampleIn "point_as_lines.geojson").features := by
    rw [deriveExample_features]
    exact List.mem_singleton.mpr rfl
  exact ⟨hmem, derived_collection_requires_heights _ _ _ hmem⟩

/-- C7: Every feature of the derived shaft-depth collection is a LineString
built from a source shaft whose two height attributes are present: its two
vertices share the shaft's horizontal position, the first carries the bottom
height plus the configured offset, the second carries the cover height plus
the configured offset as 3rd ordinate with the ~1e-12-degree nudge on its
latitude, and the feature keeps the shaft's properties; moreover the derived
features form a separate output collection — the main point collection of
the pipeline is exactly the filtered id-assigned input, with no derived
feature merged into it. -/
theorem derived_line_vertex_structure (fc : FeatureCollection DProps) (fn : String)
    (off : ℚ) (ln : String) (g : Feature DProps)
    (hg : g ∈ (deriveLineStringGeometries fc fn).features) :
    (∃ (f : Feature DProps) (a b : ℚ),
        f.props.e0101N01 = some a ∧ f.props.e0101N02 = some b
        ∧ g.props = f.props
        ∧ g.geometry = .lineString
            [⟨(geomXY f.geometry).1, (geomXY f.geometry).2, b + geoid_undulation⟩,
             ⟨(geomXY f.geometry).1, (geomXY f.geometry).2 + perturbation,
              a + geoid_undulation⟩])
    ∧ (pointPipeline off fc ln).1.features
        = ((assignIds 1 (addHeightOffset off fc).features).filter
              fun f => decide (f.props.z < 100)).filter
            fun f => decide (f.props.z > 0) := by
  constructor
  · obtain ⟨f, h1, h2, rfl⟩ := mem_derive_exists fc fn g hg
    obtain ⟨a, ha⟩ := Option.isSome_iff_exists.mp h1
    obtain ⟨b, hb⟩ := Option.isSome_iff_exists.mp h2
    refine ⟨f, a, b, ha, hb, rfl, ?_⟩
    simp [createGeojsonLineStringFeature, ha, hb, optVal]
  · rfl

/-- Witness for C7 at the spec's example: the shaft at (lon 7, lat 51) with
cover height 10 and bottom height 2 yields the derived LineString with
vertices `[7, 51, 2 + offset]` and `[7, 51 + 1e-12, 10 + offset]`. -/
theorem derived_line_vertex_structure_witness :
    deriveExampleOut
        ∈ (deriveLineStringGeometries deriveExampleIn "point_as_lines.geojson").features
    ∧ (∃ (f : Feature DProps) (a b : ℚ),
        f.props.e0101N01 = some a ∧ f.props.e0101N02 = some b
        ∧ deriveExampleOut.props = f.props
        ∧ deriveExampleOut.geometry = .lineString
            [⟨(geomXY f.geometry).1, (geomXY f.geometry).2, b + geoid_undulation⟩,
             ⟨(geomXY f.geometry).1, (geomXY f.geometry).2 + perturbation,
              a + geoid_undulation⟩])
    ∧ deriveExampleOut.geometry = Geometry.lineString
        [⟨7, 51, 2 + geoid_undulation⟩, ⟨7, 51 + perturbation, 10 + geoid_undulation⟩] := by
  have hmem : deriveExampleOut
      ∈ (deriveLineStringGeometries deriveExampleIn "point_as_lines.geojson").features := by
    rw [deriveExample_features]
    exact List.mem_singleton.mpr rfl
  exact ⟨hmem,
    (derived_line_vertex_structure deriveExampleIn "point_as_lines.geojson" 0 "out"
      deriveExampleOut hmem).1,
    rfl⟩

theorem assignIds_map_id (fs : List (Feature DProps)) : ∀ c : ℤ,
    (assignIds c fs).map (fun f => f.props.id) = (idsFrom c fs.length).map some := by
  induction fs with
  | nil => intro c; rfl
  | cons f fs ih =>
    intro c
    simp [assignIds, idsFrom, ih (c + 1)]

theorem assignIds_filterMap_id (fs : List (Feature DProps)) : ∀ c : ℤ,
    (assignIds c fs).filterMap (fun f => f.props.id) = idsFrom c fs.length := by
  induction fs with
  | nil => intro c; rfl
  | cons f fs ih =>
    intro c
    simp [assignIds, idsFrom, ih (c + 1)]

theorem idsFrom_mem_le : ∀ (n : ℕ) (c x : ℤ), x ∈ idsFrom c n → c ≤ x := by
  intro n
  induction n with
  | zero => intro c x hx; simp [idsFrom] at hx
  | succ n ih =>
    intro c x hx
    rcases List.mem_cons.mp hx with rfl | hx
    · exact le_refl x
    · exact le_trans (by omega) (ih (c + 1) x hx)

theorem idsFrom_pairwise : ∀ (n : ℕ) (c : ℤ), List.Pairwise (· < ·) (idsFrom c n) := by
  intro n
  induction n with
  | zero => intro c; exact List.Pairwise.nil
  | succ n ih =>
    intro c
    refine List.pairwise_cons.mpr ⟨fun x hx => ?_, ih (c + 1)⟩
    exact lt_of_lt_of_le (by omega) (idsFrom_mem_le n (c + 1) x hx)

theorem pipeline_ids_pairwise (off : ℚ) (fc : FeatureCollection DProps) (ln : String) :
    List.Pairwise (· < ·)
      (((pointPipeline off fc ln).1.features).filterMap fun f => f.props.id) := by
  have hsub : ((pointPipeline off fc ln).1.features).Sublist
      (assignIds 1 (addHeightOffset off fc).features) :=
    (List.filter_sublist _).trans (List.filter_sublist _)
  have h2 := hsub.filterMap (fun f => f.props.id)
  have h3 : List.Pairwise (· < ·)
      ((assignIds 1 (addHeightOffset off fc).features).filterMap fun f => f.props.id) := by
    rw [assignIds_filterMap_id]
    exact idsFrom_pairwise _ 1
  exact h3.sublist h2

/-- C2 (amended): the id pass assigns ids in input iteration order as unique
consecutive integers starting at 1; but because the sentinel and
positive-height filters run after the assignment (and, in the
data-preparation script, reprojection happens already at conversion, before
ids), the serialized output collection's id sequence is only guaranteed to
be strictly increasing and unique — it can have gaps (see the
counterexample). -/
theorem ids_unique_increasing (off : ℚ) (fc : FeatureCollection DProps) (ln : String) :
    ((assignIds 1 fc.features).map fun f => f.props.id)
        = (idsFrom 1 fc.features.length).map some
    ∧ List.Pairwise (· < ·)
        (((pointPipeline off fc ln).1.features).filterMap fun f => f.props.id) :=
  ⟨assignIds_map_id fc.features 1, pipeline_ids_pairwise off fc ln⟩

/-- C2 counterexample: on a two-feature collection whose first feature
carries the sentinel height 100, the pipeline assigns ids 1 and 2 and then
filters the first feature out, so the serialized output's id sequence is
`[2]` — it does not start at 1 and has a gap, contradicting the claim. -/
theorem ids_gap_counterexample :
    ((pointPipeline geoid_undulation gapExample "lines").1.features.map fun f => f.props.id)
        = [some 2]
    ∧ ((pointPipeline geoid_undulation gapExample "lines").1.features.map
        fun f => f.props.id) ≠ [some 1] := by
  have h : ((pointPipeline geoid_undulation gapExample "lines").1.features.map
      fun f => f.props.id) = [some 2] := by
    norm_num [pointPipeline, gapExample, assignIds, addHeightOffset, offsetFeature,
      offsetGeometry, List.filter]
  exact ⟨h, by rw [h]; simp⟩

end SewerData

namespace InsertDB

/-- C9: During the bulk database load of `insertSewerDataIntoDB.py`, the
target collection suffix for each file is inferred from the fixed
filename-substring convention, and the per-file processing results in the
raised exception — carrying no database operation, hence before any database
write for that file — if and only if the filename contains none of the eight
recognized patterns. -/
theorem load_ok_iff_recognized (cfgCollection filename : String) (featureCount : ℕ)
    (existingCollections : List String) :
    (processFile cfgCollection filename featureCount existingCollections).isOk
      = (strContains filename "point.geojson"
         || strContains filename "point.bboxInfo.json"
         || strContains filename "point_as_lines.geojson"
         || strContains filename "point_as_lines.bboxInfo.json"
         || strContains filename "line.geojson"
         || strContains filename "line.bboxInfo.json"
         || strContains filename "polygon.geojson"
         || strContains filename "polygon.bboxInfo.json") := by
  simp only [processFile, inferCollection]
  cases h1 : strContains filename "point.geojson" <;>
  cases h2 : strContains filename "point.bboxInfo.json" <;>
  cases h3 : strContains filename "point_as_lines.geojson" <;>
  cases h4 : strContains filename "point_as_lines.bboxInfo.json" <;>
  cases h5 : strContains filename "line.geojson" <;>
  cases h6 : strContains filename "line.bboxInfo.json" <;>
  cases h7 : strContains filename "polygon.geojson" <;>
  cases h8 : strContains filename "polygon.bboxInfo.json" <;>
    simp [Except.isOk, Except.toBool]

end InsertDB
